import Mathlib

/-!
Shallow embedding of the todoist-mcp-shim server (src/index.js).

The program is a thin HTTP shim exposing three MCP tools (search, fetch,
add-task) that each forward to the Todoist REST API, plus an Express app
with a session-id keyed map of open transports and an accept-header
normaliser.  Below, the JSON values handled by the program are modelled by
an inductive type, JSON.parse and JSON.stringify by executable Lean
functions (numeric literals are modelled as integers, which covers every
payload the shim manipulates), and JavaScript value coercions (truthiness,
template-literal string conversion, member access, optional chaining) by
explicit functions.  Each tool handler is modelled as a function from its
validated arguments and the remote HTTP endpoint (a function from requests
to responses) to the pair of the list of outbound requests it issues and
its result; a thrown JavaScript exception is an Except.error.
-/

namespace Shim

/-- JSON values, as produced by JSON.parse.  Numbers are modelled as
integers; every payload built or inspected by the shim is covered. -/
inductive Json where
  | null
  | bool (b : Bool)
  | num (n : Int)
  | str (s : String)
  | arr (elems : List Json)
  | obj (fields : List (String × Json))
deriving Repr

/-- The opening brace character. -/
def obrace : Char := Char.ofNat 123

/-- The closing brace character. -/
def cbrace : Char := Char.ofNat 125

/-- Skip JSON whitespace. -/
def skipWs : List Char → List Char
  | [] => []
  | c :: cs => if c = ' ' || c = '\t' || c = '\n' || c = '\r' then skipWs cs else c :: cs

/-- Value of a hexadecimal digit, if any. -/
def parseHexDigit (c : Char) : Option Nat :=
  if '0' ≤ c ∧ c ≤ '9' then some (c.toNat - 48)
  else if 'a' ≤ c ∧ c ≤ 'f' then some (c.toNat - 87)
  else if 'A' ≤ c ∧ c ≤ 'F' then some (c.toNat - 55)
  else none

/-- Parse the body of a JSON string literal after the opening quote,
handling the standard escapes. -/
def parseStringBody (fuel : Nat) (cs : List Char) (acc : List Char) :
    Option (String × List Char) :=
  match fuel, cs with
  | 0, _ => none
  | _, [] => none
  | fuel + 1, c :: cs =>
    if c = '"' then some (String.mk acc.reverse, cs)
    else if c = '\\' then
      match cs with
      | [] => none
      | e :: cs2 =>
        if e = '"' then parseStringBody fuel cs2 ('"' :: acc)
        else if e = '\\' then parseStringBody fuel cs2 ('\\' :: acc)
        else if e = '/' then parseStringBody fuel cs2 ('/' :: acc)
        else if e = 'n' then parseStringBody fuel cs2 ('\n' :: acc)
        else if e = 't' then parseStringBody fuel cs2 ('\t' :: acc)
        else if e = 'r' then parseStringBody fuel cs2 ('\r' :: acc)
        else if e = 'b' then parseStringBody fuel cs2 (Char.ofNat 8 :: acc)
        else if e = 'f' then parseStringBody fuel cs2 (Char.ofNat 12 :: acc)
        else if e = 'u' then
          match cs2 with
          | a :: b :: c3 :: d :: cs3 =>
            match parseHexDigit a, parseHexDigit b, parseHexDigit c3, parseHexDigit d with
            | some x, some y, some z, some w =>
              parseStringBody fuel cs3 (Char.ofNat (((x * 16 + y) * 16 + z) * 16 + w) :: acc)
            | _, _, _, _ => none
          | _ => none
        else none
    else if c.toNat < 32 then none
    else parseStringBody fuel cs (c :: acc)

/-- Digits-to-number accumulator. -/
def digitsToNat (ds : List Char) : Nat :=
  ds.foldl (fun acc c => acc * 10 + (c.toNat - 48)) 0

mutual

/-- Parse one JSON value (fuelled recursive descent). -/
def parseVal : Nat → List Char → Option (Json × List Char)
  | 0, _ => none
  | fuel + 1, cs =>
    match skipWs cs with
    | [] => none
    | c :: rest =>
      if c = 'n' then
        match rest with
        | 'u' :: 'l' :: 'l' :: r => some (Json.null, r)
        | _ => none
      else if c = 't' then
        match rest with
        | 'r' :: 'u' :: 'e' :: r => some (Json.bool true, r)
        | _ => none
      else if c = 'f' then
        match rest with
        | 'a' :: 'l' :: 's' :: 'e' :: r => some (Json.bool false, r)
        | _ => none
      else if c = '"' then
        match parseStringBody (rest.length + 1) rest [] with
        | some (s, r) => some (Json.str s, r)
        | none => none
      else if c = '[' then
        match skipWs rest with
        | ']' :: r => some (Json.arr [], r)
        | r => parseArrElems fuel r []
      else if c = obrace then
        let r := skipWs rest
        if r.head? = some cbrace then some (Json.obj [], r.tail)
        else parseObjFields fuel r []
      else if c = '-' then
        match (rest.span Char.isDigit) with
        | ([], _) => none
        | (ds, r) => some (Json.num (-(digitsToNat ds : Int)), r)
      else if c.isDigit then
        match ((c :: rest).span Char.isDigit) with
        | (ds, r) => some (Json.num (digitsToNat ds : Int), r)
      else none

/-- Parse the elements of a JSON array after the opening bracket. -/
def parseArrElems : Nat → List Char → List Json → Option (Json × List Char)
  | 0, _, _ => none
  | fuel + 1, cs, acc =>
    match parseVal fuel cs with
    | none => none
    | some (v, rest) =>
      match skipWs rest with
      | ',' :: r => parseArrElems fuel r (v :: acc)
      | ']' :: r => some (Json.arr (v :: acc).reverse, r)
      | _ => none

/-- Parse the fields of a JSON object after the opening brace. -/
def parseObjFields : Nat → List Char → List (String × Json) →
    Option (Json × List Char)
  | 0, _, _ => none
  | fuel + 1, cs, acc =>
    match skipWs cs with
    | '"' :: rest =>
      match parseStringBody (rest.length + 1) rest [] with
      | none => none
      | some (k, rest2) =>
        match skipWs rest2 with
        | ':' :: rest3 =>
          match parseVal fuel rest3 with
          | none => none
          | some (v, rest4) =>
            match skipWs rest4 with
            | ',' :: r => parseObjFields fuel r ((k, v) :: acc)
            | r =>
              if r.head? = some cbrace then some (Json.obj ((k, v) :: acc).reverse, r.tail)
              else none
        | _ => none
    | _ => none

end

/-- Model of JSON.parse: none models a thrown SyntaxError. -/
def jsonParse (s : String) : Option Json :=
  match parseVal (2 * s.length + 4) s.data with
  | some (v, rest) => if (skipWs rest).isEmpty then some v else none
  | none => none

/-- One hexadecimal digit character (lowercase). -/
def hexDigitChar (n : Nat) : Char :=
  if n < 10 then Char.ofNat (48 + n % 10) else Char.ofNat (87 + n % 16)

/-- Escape of one character inside a JSON string literal, as emitted by
JSON.stringify. -/
def escapeChar (c : Char) : String :=
  if c = '"' then "\\\""
  else if c = '\\' then "\\\\"
  else if c = '\n' then "\\n"
  else if c = '\r' then "\\r"
  else if c = '\t' then "\\t"
  else if c = Char.ofNat 8 then "\\b"
  else if c = Char.ofNat 12 then "\\f"
  else if c.toNat < 32 then
    "\\u00" ++ String.mk [hexDigitChar (c.toNat / 16), hexDigitChar (c.toNat % 16)]
  else String.singleton c

/-- Escape a whole string for a JSON string literal. -/
def escapeString (s : String) : String :=
  String.join (s.data.map escapeChar)

mutual

/-- Model of JSON.stringify on JSON values. -/
def Json.stringify : Json → String
  | Json.null => "null"
  | Json.bool true => "true"
  | Json.bool false => "false"
  | Json.num n => toString n
  | Json.str s => "\"" ++ escapeString s ++ "\""
  | Json.arr xs => "[" ++ stringifyList xs ++ "]"
  | Json.obj fs => "\x7b" ++ stringifyFields fs ++ "\x7d"

/-- Comma-separated serialisation of array elements. -/
def stringifyList : List Json → String
  | [] => ""
  | [x] => Json.stringify x
  | x :: xs => Json.stringify x ++ "," ++ stringifyList xs

/-- Comma-separated serialisation of object fields. -/
def stringifyFields : List (String × Json) → String
  | [] => ""
  | [(k, v)] => "\"" ++ escapeString k ++ "\":" ++ Json.stringify v
  | (k, v) :: fs => "\"" ++ escapeString k ++ "\":" ++ Json.stringify v ++ "," ++ stringifyFields fs

end

/-! JavaScript value semantics used by the handlers. -/

/-- JavaScript truthiness of a JSON value. -/
def jsTruthy : Json → Bool
  | Json.null => false
  | Json.bool b => b
  | Json.num n => n != 0
  | Json.str s => s != ""
  | Json.arr _ => true
  | Json.obj _ => true

mutual

/-- JavaScript string conversion of a JSON value, as performed by template
literals. -/
def jsDisplay : Json → String
  | Json.null => "null"
  | Json.bool true => "true"
  | Json.bool false => "false"
  | Json.num n => toString n
  | Json.str s => s
  | Json.arr xs => jsJoinList xs
  | Json.obj _ => "[object Object]"

/-- Comma join of array elements, rendering null as the empty string, as
Array.prototype.toString does. -/
def jsJoinList : List Json → String
  | [] => ""
  | [Json.null] => ""
  | [x] => jsDisplay x
  | Json.null :: xs => "," ++ jsJoinList xs
  | x :: xs => jsDisplay x ++ "," ++ jsJoinList xs

end

/-- String conversion of a possibly undefined value (none is undefined). -/
def jsDisplayOpt : Option Json → String
  | none => "undefined"
  | some j => jsDisplay j

/-- Property lookup among object fields; JSON.parse keeps the last of
duplicate keys, so the reversed list is searched. -/
def jsFieldLookup (fields : List (String × Json)) (k : String) : Option Json :=
  (fields.reverse).lookup k

/-- JavaScript member access e.x on a JSON value: a TypeError is thrown on
null, primitives yield undefined, objects yield the field value. -/
def jsMember : Json → String → Except String (Option Json)
  | Json.null, _ => Except.error "TypeError: cannot read properties of null"
  | Json.obj fields, k => Except.ok (jsFieldLookup fields k)
  | _, _ => Except.ok none

/-- Optional chaining e?.x on a possibly undefined value: null and
undefined short-circuit to undefined. -/
def jsOptChain (v : Option Json) (k : String) : Except String (Option Json) :=
  match v with
  | none => Except.ok none
  | some Json.null => Except.ok none
  | some j => jsMember j k

/-- JavaScript logical-or over possibly undefined environment strings: the
empty string and undefined are falsy. -/
def jsOrElse (a b : Option String) : Option String :=
  match a with
  | some s => if s = "" then b else some s
  | none => b

/-! The HTTP boundary. -/

/-- Base URL of the remote Todoist REST API (src/index.js line 9). -/
def TODOIST_API : String := "https://api.todoist.com/api/v1"

/-- The bearer token, read from the process environment with the three
fallback variable names of src/index.js lines 10 to 13. -/
def tokenFromEnv (env : String → Option String) : Option String :=
  jsOrElse (env "TODOIST_API_TOKEN") (jsOrElse (env "TODOIST_TOKEN") (env "TODOIST"))

/-- An outbound HTTP request as assembled by the handlers: URL query
parameters are kept as a list of pairs, as in the URLSearchParams object. -/
structure HttpRequest where
  method : String
  url : String
  params : List (String × String)
  headers : List (String × String)
  body : Option String
deriving Repr, DecidableEq

/-- A remote HTTP response as observed through the fetch API. -/
structure HttpResponse where
  status : Nat
  body : String
deriving Repr, DecidableEq

/-- The fetch API res.ok flag: status in the range 200 to 299. -/
def HttpResponse.ok (r : HttpResponse) : Bool :=
  200 ≤ r.status && r.status < 300

/-- One block of an MCP tool result: a text block or a resource link.  The
name field of a link holds whatever JavaScript value the handler put there. -/
inductive ContentBlock where
  | text (text : String)
  | resourceLink (uri : String) (name : Json) (mimeType : String) (description : String)
deriving Repr

/-- An MCP tool result: a list of content blocks. -/
structure ToolResult where
  content : List ContentBlock
deriving Repr

/-! The search tool (src/index.js lines 24 to 54). -/

/-- The outbound request built by the search handler: GET on
tasks/filter with the query and limit as query parameters and the bearer
token header. -/
def searchRequest (token query : String) (limit : Int) : HttpRequest :=
  { method := "GET"
    url := TODOIST_API ++ "/tasks/filter"
    params := [("query", query), ("limit", toString limit)]
    headers := [("Authorization", "Bearer " ++ token)]
    body := none }

/-- The expression data?.results of line 44: optional member access that
cannot throw because parsed data is never undefined. -/
def dataResults : Json → Option Json
  | Json.null => none
  | Json.obj fields => jsFieldLookup fields "results"
  | _ => none

/-- Array.isArray on a possibly undefined value. -/
def jsIsArray : Option Json → Bool
  | some (Json.arr _) => true
  | _ => false

/-- The results list of line 44: data.results when it is an array, else
the empty list. -/
def resultsOf (data : Json) : List Json :=
  match dataResults data with
  | some (Json.arr l) => l
  | _ => []

/-- The resource link built for one search result t (lines 45 to 51);
member accesses are evaluated in the order of the object literal and may
throw when t is null. -/
def mkLink (t : Json) : Except String ContentBlock :=
  match jsMember t "id" with
  | Except.error e => Except.error e
  | Except.ok id =>
    match jsMember t "content" with
    | Except.error e => Except.error e
    | Except.ok content =>
      match jsMember t "due" with
      | Except.error e => Except.error e
      | Except.ok due =>
        match jsOptChain due "date" with
        | Except.error e => Except.error e
        | Except.ok dueDate =>
          match jsMember t "project_id" with
          | Except.error e => Except.error e
          | Except.ok projectId =>
            let dueStr :=
              match dueDate with
              | none => "no date"
              | some Json.null => "no date"
              | some j => jsDisplay j
            let name :=
              match content with
              | some c => if jsTruthy c then c else Json.str ("task " ++ jsDisplayOpt id)
              | none => Json.str ("task " ++ jsDisplayOpt id)
            Except.ok (ContentBlock.resourceLink ("todoist://task/" ++ jsDisplayOpt id) name
              "application/json" (dueStr ++ " • project " ++ jsDisplayOpt projectId))

/-- results.map over mkLink; the first thrown error aborts the map, as in
Array.prototype.map. -/
def mapLinks : List Json → Except String (List ContentBlock)
  | [] => Except.ok []
  | t :: ts =>
    match mkLink t with
    | Except.error e => Except.error e
    | Except.ok l =>
      match mapLinks ts with
      | Except.error e => Except.error e
      | Except.ok ls => Except.ok (l :: ls)

/-- The success branch of the search handler (lines 43 to 52). -/
def searchSuccess (query : String) (data : Json) : Except String ToolResult :=
  let results := resultsOf data
  match mapLinks results with
  | Except.error e => Except.error e
  | Except.ok links =>
    let summary := ContentBlock.text
      ("Found " ++ toString results.length ++ " task(s) for \"" ++ query ++ "\".")
    Except.ok { content := summary :: links }

/-- The response processing of the search handler (lines 40 to 52): error
pass-through when the status is not OK, otherwise JSON.parse then the
success branch. -/
def searchRespond (query : String) (res : HttpResponse) : Except String ToolResult :=
  if !res.ok then
    Except.ok { content := [ContentBlock.text
      ("Todoist error " ++ toString res.status ++ ": " ++ res.body)] }
  else
    match jsonParse res.body with
    | none => Except.error "SyntaxError: Unexpected token in JSON"
    | some data => searchSuccess query data

/-- The whole search handler: one fetch of the built request, then branch
on the response.  The first component is the trace of outbound requests;
the single fetch of line 39 happens before any branch, so the trace is a
one-element list. -/
def searchHandler (token query : String) (limitOpt : Option Int)
    (remote : HttpRequest → HttpResponse) :
    List HttpRequest × Except String ToolResult :=
  let limit := limitOpt.getD 50
  let req := searchRequest token query limit
  ([req], searchRespond query (remote req))

/-! The fetch tool (src/index.js lines 57 to 73). -/

/-- The kind argument: the zod enum of line 62 admits exactly the values
task and project. -/
inductive FetchKind where
  | task
  | project
deriving Repr, DecidableEq

/-- The outbound request of the fetch handler (lines 65 to 68). -/
def fetchRequest (token : String) (kind : FetchKind) (id : String) : HttpRequest :=
  { method := "GET"
    url := TODOIST_API ++
      (match kind with
       | FetchKind.task => "/tasks/" ++ id
       | FetchKind.project => "/projects/" ++ id)
    params := []
    headers := [("Authorization", "Bearer " ++ token)]
    body := none }

/-- The response processing of the fetch handler (lines 69 to 71). -/
def fetchRespond (res : HttpResponse) : Except String ToolResult :=
  if !res.ok then
    Except.ok { content := [ContentBlock.text
      ("Todoist error " ++ toString res.status ++ ": " ++ res.body)] }
  else
    Except.ok { content := [ContentBlock.text res.body] }

/-- The whole fetch handler: one outbound request, then branch. -/
def fetchHandler (token : String) (kind : FetchKind) (id : String)
    (remote : HttpRequest → HttpResponse) :
    List HttpRequest × Except String ToolResult :=
  let req := fetchRequest token kind id
  ([req], fetchRespond (remote req))

/-! The add-task tool (src/index.js lines 76 to 100). -/

/-- The fields of the JSON body of line 94: JSON.stringify omits the
members whose value is undefined, so an absent optional argument
contributes no field. -/
def addTaskFields (content : String) (projectId dueString : Option String) :
    List (String × Json) :=
  [("content", Json.str content)] ++
    (match projectId with
     | some p => [("project_id", Json.str p)]
     | none => []) ++
    (match dueString with
     | some d => [("due_string", Json.str d)]
     | none => [])

/-- The outbound request of the add-task handler (lines 88 to 95). -/
def addTaskRequest (token content : String) (projectId dueString : Option String) :
    HttpRequest :=
  { method := "POST"
    url := TODOIST_API ++ "/tasks"
    params := []
    headers := [("Authorization", "Bearer " ++ token),
                ("Content-Type", "application/json")]
    body := some (Json.stringify (Json.obj (addTaskFields content projectId dueString))) }

/-- The response processing of the add-task handler (lines 96 to 98). -/
def addTaskRespond (res : HttpResponse) : Except String ToolResult :=
  if !res.ok then
    Except.ok { content := [ContentBlock.text
      ("Todoist error " ++ toString res.status ++ ": " ++ res.body)] }
  else
    Except.ok { content := [ContentBlock.text res.body] }

/-- The whole add-task handler: one outbound request, then branch. -/
def addTaskHandler (token content : String) (projectId dueString : Option String)
    (remote : HttpRequest → HttpResponse) :
    List HttpRequest × Except String ToolResult :=
  let req := addTaskRequest token content projectId dueString
  ([req], addTaskRespond (remote req))

/-! The zod validation of the search limit (src/index.js line 32). -/

/-- Acceptance of the limit input schema z.number().int().min(1).max(200):
JavaScript numbers are modelled as rationals, on which integrality and the
two bounds are exactly the three zod checks. -/
def limitSchemaAccepts (x : ℚ) : Bool :=
  decide (x.den = 1) && decide ((1 : ℚ) ≤ x) && decide (x ≤ (200 : ℚ))

/-! The accept-header normaliser (src/index.js lines 147 to 155). -/

/-- String.prototype.includes: substring containment. -/
def strIncludes (hay needle : String) : Bool :=
  decide (needle.data <:+: hay.data)

/-- ensureAcceptHeader on the raw accept header value (the empty string
when the header is absent): appends whichever of the two required media
types is missing. -/
def ensureAcceptHeader (raw : String) : String :=
  if !strIncludes raw "application/json" || !strIncludes raw "text/event-stream" then
    let parts :=
      (if !strIncludes raw "application/json" then ["application/json"] else []) ++
      (if !strIncludes raw "text/event-stream" then ["text/event-stream"] else [])
    (if raw != "" then raw ++ ", " else "") ++ String.intercalate ", " parts
  else raw

/-! The session map and the /mcp route handlers (src/index.js lines 132 to
191).  Transports are identified by opaque handles (naturals); the
internal behaviour of the transport library is outside the model, so a
route handler that calls transport.handleRequest is recorded as a
delegation action. -/

/-- The transports object: a session-id keyed association list. -/
abbrev SessionMap := List (String × Nat)

/-- JavaScript object assignment transports[sid] = t: replace in place or
append. -/
def setSession : SessionMap → String → Nat → SessionMap
  | [], sid, t => [(sid, t)]
  | (k, v) :: m, sid, t =>
    if k = sid then (k, t) :: m else (k, v) :: setSession m sid t

/-- JavaScript property read transports[sid]. -/
def getSession : SessionMap → String → Option Nat
  | [], _ => none
  | (k, v) :: m, sid => if k = sid then some v else getSession m sid

/-- The delete operator on the transports object: the entry under the key
is removed. -/
def deleteSession : SessionMap → String → SessionMap
  | [], _ => []
  | (k, v) :: m, sid =>
    if k = sid then deleteSession m sid else (k, v) :: deleteSession m sid

/-- The onsessioninitialized callback of line 137. -/
def onSessionInitialized (m : SessionMap) (sid : String) (t : Nat) : SessionMap :=
  setSession m sid t

/-- The onclose callback of lines 138 to 140: the entry is deleted only
when the sessionId is a truthy string. -/
def onClose (m : SessionMap) (sessionId : Option String) : SessionMap :=
  match sessionId with
  | some sid => if sid ≠ "" then deleteSession m sid else m
  | none => m

/-- The lookup of lines 164 to 166 and 177 to 179: a falsy header short
circuits to undefined. -/
def lookupSession (m : SessionMap) (sidHeader : Option String) : Option Nat :=
  match sidHeader with
  | some sid => if sid ≠ "" then getSession m sid else none
  | none => none

/-- What a route handler does with the request besides reading the map. -/
inductive McpAction where
  | delegated (transport : Nat)
  | delegatedNew
  | answered (status : Nat) (body : String)
deriving Repr, DecidableEq

/-- The GET /mcp handler (lines 160 to 172): stream when the accept header
asks for server-sent events (delegating to the found or a fresh
transport), otherwise answer the readiness JSON.  The map is returned
unchanged: the handler never writes it. -/
def getMcpHandler (m : SessionMap) (accept : String) (sidHeader : Option String) :
    SessionMap × McpAction :=
  if strIncludes accept "text/event-stream" then
    match lookupSession m sidHeader with
    | some t => (m, McpAction.delegated t)
    | none => (m, McpAction.delegatedNew)
  else
    (m, McpAction.answered 200 (Json.stringify (Json.obj
      [("status", Json.str "ready"),
       ("tools", Json.arr [Json.str "search", Json.str "fetch", Json.str "add-task"])])))

/-- The POST /mcp handler (lines 175 to 182). -/
def postMcpHandler (m : SessionMap) (sidHeader : Option String) :
    SessionMap × McpAction :=
  match lookupSession m sidHeader with
  | some t => (m, McpAction.delegated t)
  | none => (m, McpAction.delegatedNew)

/-- The DELETE /mcp handler (lines 185 to 191): with no open session it
answers 200 ok, otherwise it delegates to the found transport. -/
def deleteMcpHandler (m : SessionMap) (sidHeader : Option String) :
    SessionMap × McpAction :=
  match lookupSession m sidHeader with
  | none => (m, McpAction.answered 200 "ok")
  | some t => (m, McpAction.delegated t)

/-! Spec-side descriptions used by the refinement statements. -/

/-- Total field getter on a JSON value: the field of an object, undefined
otherwise.  Used only to state properties of result objects. -/
def jsField : Json → String → Option Json
  | Json.obj fields, k => jsFieldLookup fields k
  | _, _ => none

/-- The resource link the spec describes for one search result object:
the uri is todoist with the task id, the name is the content when truthy
and the fallback task-id string otherwise, the mime type is fixed, and the
description shows the due date (or no date) and the project id. -/
def specLink (t : Json) : ContentBlock :=
  let idStr := jsDisplayOpt (jsField t "id")
  let name :=
    match jsField t "content" with
    | some c => if jsTruthy c then c else Json.str ("task " ++ idStr)
    | none => Json.str ("task " ++ idStr)
  let date :=
    match jsField t "due" with
    | some (Json.obj fs) => jsFieldLookup fs "date"
    | _ => none
  let dueStr :=
    match date with
    | none => "no date"
    | some Json.null => "no date"
    | some j => jsDisplay j
  ContentBlock.resourceLink ("todoist://task/" ++ idStr) name "application/json"
    (dueStr ++ " • project " ++ jsDisplayOpt (jsField t "project_id"))

/-! Theorems settling the claims. -/

/-- C1: a search(query, limit) call issues exactly one GET request to
TODOIST_API tasks/filter, with the query parameter set to the query string
and the limit parameter set to the decimal rendering of the limit, under
the Authorization Bearer header with the token read from the process
environment. -/
theorem search_request_spec (env : String → Option String) (token query : String)
    (limit : Int) (remote : HttpRequest → HttpResponse)
    (_htoken : tokenFromEnv env = some token) :
    (searchHandler token query (some limit) remote).1 =
      [{ method := "GET"
         url := TODOIST_API ++ "/tasks/filter"
         params := [("query", query), ("limit", toString limit)]
         headers := [("Authorization", "Bearer " ++ token)]
         body := none }] :=
  rfl

theorem search_request_spec_witness :
    tokenFromEnv (fun k => if k = "TODOIST_API_TOKEN" then some "tok" else none) = some "tok" ∧
    (searchHandler "tok" "q" (some 7) (fun _ => { status := 200, body := "[]" })).1 =
      [{ method := "GET"
         url := TODOIST_API ++ "/tasks/filter"
         params := [("query", "q"), ("limit", toString (7 : Int))]
         headers := [("Authorization", "Bearer " ++ "tok")]
         body := none }] :=
  ⟨rfl, search_request_spec (fun k => if k = "TODOIST_API_TOKEN" then some "tok" else none)
    "tok" "q" 7 (fun _ => { status := 200, body := "[]" }) rfl⟩

/-- C2: a fetch(kind, id) call targets tasks/id for kind task and
projects/id for kind project (the kind type admits no other value), and on
an OK response the result is one text block holding the raw response body
unchanged. -/
theorem fetch_request_spec (token id : String) (kind : FetchKind)
    (remote : HttpRequest → HttpResponse) :
    ((fetchHandler token kind id remote).1 =
      [{ method := "GET"
         url := TODOIST_API ++
           (match kind with
            | FetchKind.task => "/tasks/" ++ id
            | FetchKind.project => "/projects/" ++ id)
         params := []
         headers := [("Authorization", "Bearer " ++ token)]
         body := none }])
    ∧ ((remote (fetchRequest token kind id)).ok = true →
        (fetchHandler token kind id remote).2 =
          Except.ok { content := [ContentBlock.text (remote (fetchRequest token kind id)).body] }) := by
  refine ⟨rfl, fun hok => ?_⟩
  show fetchRespond (remote (fetchRequest token kind id)) = _
  simp [fetchRespond, hok]

theorem fetch_request_spec_witness :
    ((fun _ => { status := 200, body := "\x7b\"id\":\"5\"\x7d" } :
        HttpRequest → HttpResponse) (fetchRequest "tok" FetchKind.task "5")).ok = true ∧
    (fetchHandler "tok" FetchKind.task "5"
        (fun _ => { status := 200, body := "\x7b\"id\":\"5\"\x7d" })).2 =
      Except.ok { content := [ContentBlock.text "\x7b\"id\":\"5\"\x7d"] } :=
  ⟨rfl, (fetch_request_spec "tok" "5" FetchKind.task
    (fun _ => { status := 200, body := "\x7b\"id\":\"5\"\x7d" })).2 rfl⟩

/-- C3: an add-task(content, project_id, due_string) call issues one POST
to TODOIST_API tasks with the application/json content type and a JSON
body holding the content field and the optional fields exactly as given
(an absent optional argument contributes no field, as JSON.stringify drops
undefined members), and on an OK response the result is one text block
holding the raw response body unchanged. -/
theorem addTask_request_spec (token content : String) (projectId dueString : Option String)
    (remote : HttpRequest → HttpResponse) :
    ((addTaskHandler token content projectId dueString remote).1 =
      [{ method := "POST"
         url := TODOIST_API ++ "/tasks"
         params := []
         headers := [("Authorization", "Bearer " ++ token),
                     ("Content-Type", "application/json")]
         body := some (Json.stringify (Json.obj (
           [("content", Json.str content)] ++
           (match projectId with
            | some p => [("project_id", Json.str p)]
            | none => []) ++
           (match dueString with
            | some d => [("due_string", Json.str d)]
            | none => [])))) }])
    ∧ ((remote (addTaskRequest token content projectId dueString)).ok = true →
        (addTaskHandler token content projectId dueString remote).2 =
          Except.ok { content := [ContentBlock.text
            (remote (addTaskRequest token content projectId dueString)).body] }) := by
  refine ⟨rfl, fun hok => ?_⟩
  show addTaskRespond (remote (addTaskRequest token content projectId dueString)) = _
  simp [addTaskRespond, hok]

theorem addTask_request_spec_witness :
    ((fun _ => { status := 200, body := "\x7b\"id\":\"9\"\x7d" } :
        HttpRequest → HttpResponse) (addTaskRequest "tok" "hey" (some "p1") none)).ok = true ∧
    (addTaskHandler "tok" "hey" (some "p1") none
        (fun _ => { status := 200, body := "\x7b\"id\":\"9\"\x7d" })).2 =
      Except.ok { content := [ContentBlock.text "\x7b\"id\":\"9\"\x7d"] } :=
  ⟨rfl, (addTask_request_spec "tok" "hey" (some "p1") none
    (fun _ => { status := 200, body := "\x7b\"id\":\"9\"\x7d" })).2 rfl⟩

/-- C4: on a response whose status is not OK, each of the three tools
returns normally with the single text block Todoist error status colon
body, and issues no second outbound request: the whole handler output is
the one-request trace together with that error result. -/
theorem error_passthrough_spec (token query content id : String) (kind : FetchKind)
    (limitOpt : Option Int) (projectId dueString : Option String)
    (remote : HttpRequest → HttpResponse) :
    ((remote (searchRequest token query (limitOpt.getD 50))).ok = false →
      searchHandler token query limitOpt remote =
        ([searchRequest token query (limitOpt.getD 50)],
         Except.ok { content := [ContentBlock.text ("Todoist error " ++
           toString (remote (searchRequest token query (limitOpt.getD 50))).status ++ ": " ++
           (remote (searchRequest token query (limitOpt.getD 50))).body)] }))
    ∧ ((remote (fetchRequest token kind id)).ok = false →
      fetchHandler token kind id remote =
        ([fetchRequest token kind id],
         Except.ok { content := [ContentBlock.text ("Todoist error " ++
           toString (remote (fetchRequest token kind id)).status ++ ": " ++
           (remote (fetchRequest token kind id)).body)] }))
    ∧ ((remote (addTaskRequest token content projectId dueString)).ok = false →
      addTaskHandler token content projectId dueString remote =
        ([addTaskRequest token content projectId dueString],
         Except.ok { content := [ContentBlock.text ("Todoist error " ++
           toString (remote (addTaskRequest token content projectId dueString)).status ++ ": " ++
           (remote (addTaskRequest token content projectId dueString)).body)] })) := by
  refine ⟨fun h1 => ?_, fun h2 => ?_, fun h3 => ?_⟩
  · show ([searchRequest token query (limitOpt.getD 50)],
      searchRespond query (remote (searchRequest token query (limitOpt.getD 50)))) = _
    simp [searchRespond, h1]
  · show ([fetchRequest token kind id],
      fetchRespond (remote (fetchRequest token kind id))) = _
    simp [fetchRespond, h2]
  · show ([addTaskRequest token content projectId dueString],
      addTaskRespond (remote (addTaskRequest token content projectId dueString))) = _
    simp [addTaskRespond, h3]

theorem error_passthrough_spec_witness :
    ((fun _ => { status := 404, body := "nope" } :
        HttpRequest → HttpResponse) (searchRequest "t" "q" ((none : Option Int).getD 50))).ok = false ∧
    searchHandler "t" "q" none (fun _ => { status := 404, body := "nope" }) =
      ([searchRequest "t" "q" ((none : Option Int).getD 50)],
       Except.ok { content := [ContentBlock.text ("Todoist error " ++
         toString (404 : Nat) ++ ": " ++ "nope")] }) :=
  ⟨rfl, (error_passthrough_spec "t" "q" "c" "i" FetchKind.task none none none
    (fun _ => { status := 404, body := "nope" })).1 rfl⟩

/-- C6: every call to any of the three tools issues exactly one outbound
request, whatever the remote response is. -/
theorem single_request_spec (token query content id : String) (kind : FetchKind)
    (limitOpt : Option Int) (projectId dueString : Option String)
    (remote : HttpRequest → HttpResponse) :
    (searchHandler token query limitOpt remote).1.length = 1
    ∧ (fetchHandler token kind id remote).1.length = 1
    ∧ (addTaskHandler token content projectId dueString remote).1.length = 1 :=
  ⟨rfl, rfl, rfl⟩

theorem getSession_setSession_self (m : SessionMap) (sid : String) (t : Nat) :
    getSession (setSession m sid t) sid = some t := by
  induction m with
  | nil => simp [setSession, getSession]
  | cons p m ih =>
    obtain ⟨k, v⟩ := p
    by_cases h : k = sid
    · subst h; simp [setSession, getSession]
    · simp [setSession, getSession, h, ih]

theorem getSession_setSession_other (m : SessionMap) (sid k : String) (t : Nat)
    (h : k ≠ sid) : getSession (setSession m sid t) k = getSession m k := by
  induction m with
  | nil => simp [setSession, getSession, Ne.symm h]
  | cons p m ih =>
    obtain ⟨k2, v⟩ := p
    by_cases h2 : k2 = sid
    · subst h2
      simp [setSession, getSession, Ne.symm h]
    · simp only [setSession, if_neg h2, getSession]
      by_cases h3 : k2 = k
      · simp [h3]
      · simp [h3, ih]

theorem getSession_deleteSession_self (m : SessionMap) (sid : String) :
    getSession (deleteSession m sid) sid = none := by
  induction m with
  | nil => simp [deleteSession, getSession]
  | cons p m ih =>
    obtain ⟨k, v⟩ := p
    by_cases h : k = sid
    · subst h; simpa [deleteSession] using ih
    · simp [deleteSession, h, getSession, ih]

theorem getSession_deleteSession_other (m : SessionMap) (sid k : String)
    (h : k ≠ sid) : getSession (deleteSession m sid) k = getSession m k := by
  induction m with
  | nil => simp [deleteSession, getSession]
  | cons p m ih =>
    obtain ⟨k2, v⟩ := p
    by_cases h2 : k2 = sid
    · subst h2
      simp [deleteSession, getSession, Ne.symm h, ih]
    · simp only [deleteSession, if_neg h2, getSession]
      by_cases h3 : k2 = k
      · simp [h3]
      · simp [h3, ih]

/-- C7: the session map is written only by the transport lifecycle
callbacks: the three /mcp route handlers return it untouched, a DELETE
naming no open session answers 200 ok with the map unchanged, the
onsessioninitialized callback adds exactly the entry for its session id,
the onclose callback removes exactly the entry for a truthy session id
and is a no-op without one. -/
theorem session_map_spec (m : SessionMap) (accept : String) (sidHeader : Option String)
    (sid k : String) (t : Nat) :
    (getMcpHandler m accept sidHeader).1 = m
    ∧ (postMcpHandler m sidHeader).1 = m
    ∧ (deleteMcpHandler m sidHeader).1 = m
    ∧ (lookupSession m sidHeader = none →
        deleteMcpHandler m sidHeader = (m, McpAction.answered 200 "ok"))
    ∧ getSession (onSessionInitialized m sid t) sid = some t
    ∧ (k ≠ sid → getSession (onSessionInitialized m sid t) k = getSession m k)
    ∧ (sid ≠ "" → getSession (onClose m (some sid)) sid = none)
    ∧ (k ≠ sid → getSession (onClose m (some sid)) k = getSession m k)
    ∧ onClose m none = m := by
  refine ⟨?_, ?_, ?_, fun hnone => ?_, getSession_setSession_self m sid t,
    fun hk => getSession_setSession_other m sid k t hk, fun hsid => ?_, fun hk => ?_, rfl⟩
  · unfold getMcpHandler
    split
    · cases lookupSession m sidHeader <;> rfl
    · rfl
  · unfold postMcpHandler
    cases lookupSession m sidHeader <;> rfl
  · unfold deleteMcpHandler
    cases lookupSession m sidHeader <;> rfl
  · unfold deleteMcpHandler
    rw [hnone]
  · show getSession (if sid ≠ "" then deleteSession m sid else m) sid = none
    rw [if_pos hsid]
    exact getSession_deleteSession_self m sid
  · show getSession (if sid ≠ "" then deleteSession m sid else m) k = getSession m k
    by_cases hsid : sid = ""
    · rw [if_neg (by simp [hsid])]
    · rw [if_pos hsid]
      exact getSession_deleteSession_other m sid k hk

theorem session_map_spec_witness :
    lookupSession [("a", 1)] (some "b") = none ∧
    deleteMcpHandler [("a", 1)] (some "b") = ([("a", 1)], McpAction.answered 200 "ok") ∧
    ("x" : String) ≠ "a" ∧
    getSession (onSessionInitialized [("a", 1)] "a" 2) "x" = getSession [("a", 1)] "x" ∧
    ("a" : String) ≠ "" ∧
    getSession (onClose [("a", 1)] (some "a")) "a" = none :=
  ⟨by decide, (session_map_spec [("a", 1)] "" (some "b") "a" "x" 2).2.2.2.1 (by decide),
   by decide, (session_map_spec [("a", 1)] "" (some "b") "a" "x" 2).2.2.2.2.2.1 (by decide),
   by decide, (session_map_spec [("a", 1)] "" (some "b") "a" "x" 2).2.2.2.2.2.2.1 (by decide)⟩

/-- C8: the zod schema of the search limit accepts exactly the integers
from 1 to 200, and when the limit is omitted the handler forwards the
default 50 to the remote endpoint. -/
theorem limit_schema_spec (q : ℚ) (token query : String)
    (remote : HttpRequest → HttpResponse) :
    (limitSchemaAccepts q = true ↔ ∃ n : ℤ, q = (n : ℚ) ∧ 1 ≤ n ∧ n ≤ 200)
    ∧ (searchHandler token query none remote).1 =
      [{ method := "GET"
         url := TODOIST_API ++ "/tasks/filter"
         params := [("query", query), ("limit", "50")]
         headers := [("Authorization", "Bearer " ++ token)]
         body := none }] := by
  constructor
  · unfold limitSchemaAccepts
    simp only [Bool.and_eq_true, decide_eq_true_eq]
    constructor
    · rintro ⟨⟨hden, h1⟩, h2⟩
      have hq : ((q.num : ℚ)) = q := (Rat.den_eq_one_iff q).mp hden
      refine ⟨q.num, hq.symm, ?_, ?_⟩
      · have : ((1 : ℤ) : ℚ) ≤ (q.num : ℚ) := by rw [hq]; exact_mod_cast h1
        exact_mod_cast this
      · have : ((q.num : ℚ)) ≤ ((200 : ℤ) : ℚ) := by rw [hq]; exact_mod_cast h2
        exact_mod_cast this
    · rintro ⟨n, rfl, hn1, hn2⟩
      refine ⟨⟨Rat.den_intCast n, ?_⟩, ?_⟩
      · exact_mod_cast hn1
      · exact_mod_cast hn2
  · rfl

theorem limit_schema_spec_witness :
    limitSchemaAccepts (50 : ℚ) = true ∧
    (searchHandler "tok" "q" none (fun _ => { status := 200, body := "[]" })).1 =
      [{ method := "GET"
         url := TODOIST_API ++ "/tasks/filter"
         params := [("query", "q"), ("limit", "50")]
         headers := [("Authorization", "Bearer " ++ "tok")]
         body := none }] :=
  ⟨by decide,
   (limit_schema_spec (50 : ℚ) "tok" "q" (fun _ => { status := 200, body := "[]" })).2⟩

theorem strIncludes_append_left (a b n : String) (h : strIncludes a n = true) :
    strIncludes (a ++ b) n = true := by
  unfold strIncludes at h ⊢
  rw [decide_eq_true_eq] at h ⊢
  rw [String.data_append]
  exact h.trans ⟨[], b.data, by simp⟩

theorem strIncludes_append_right (a b n : String) (h : strIncludes b n = true) :
    strIncludes (a ++ b) n = true := by
  unfold strIncludes at h ⊢
  rw [decide_eq_true_eq] at h ⊢
  rw [String.data_append]
  exact h.trans ⟨a.data, [], by simp⟩

/-- C9: after ensureAcceptHeader the accept header contains both required
media types, the original value is preserved as a prefix, and the function
is idempotent. -/
theorem ensureAcceptHeader_spec (raw : String) :
    strIncludes (ensureAcceptHeader raw) "application/json" = true
    ∧ strIncludes (ensureAcceptHeader raw) "text/event-stream" = true
    ∧ raw.data <+: (ensureAcceptHeader raw).data
    ∧ ensureAcceptHeader (ensureAcceptHeader raw) = ensureAcceptHeader raw := by
  have main : ∀ r : String,
      strIncludes (ensureAcceptHeader r) "application/json" = true ∧
      strIncludes (ensureAcceptHeader r) "text/event-stream" = true ∧
      r.data <+: (ensureAcceptHeader r).data := by
    intro r
    by_cases hj : strIncludes r "application/json" = true <;>
      by_cases he : strIncludes r "text/event-stream" = true
    · have hr : ensureAcceptHeader r = r := by
        unfold ensureAcceptHeader
        rw [hj, he]
        rfl
      rw [hr]
      exact ⟨hj, he, List.prefix_refl _⟩
    · have hr : ensureAcceptHeader r =
          (if r != "" then r ++ ", " else "") ++ "text/event-stream" := by
        unfold ensureAcceptHeader
        rw [hj, eq_false_of_ne_true he]
        rfl
      rw [hr]
      by_cases hr0 : r = ""
      · subst hr0
        exact absurd hj (by decide)
      · rw [if_pos (by simp [hr0])]
        refine ⟨strIncludes_append_left _ _ _ (strIncludes_append_left _ _ _ hj),
          strIncludes_append_right _ _ _ (by decide), ?_⟩
        rw [String.data_append, String.data_append]
        exact ⟨(", ").data ++ ("text/event-stream").data, by simp⟩
    · have hr : ensureAcceptHeader r =
          (if r != "" then r ++ ", " else "") ++ "application/json" := by
        unfold ensureAcceptHeader
        rw [he, eq_false_of_ne_true hj]
        rfl
      rw [hr]
      by_cases hr0 : r = ""
      · subst hr0
        exact absurd he (by decide)
      · rw [if_pos (by simp [hr0])]
        refine ⟨strIncludes_append_right _ _ _ (by decide),
          strIncludes_append_left _ _ _ (strIncludes_append_left _ _ _ he), ?_⟩
        rw [String.data_append, String.data_append]
        exact ⟨(", ").data ++ ("application/json").data, by simp⟩
    · have hr : ensureAcceptHeader r =
          (if r != "" then r ++ ", " else "") ++ "application/json, text/event-stream" := by
        unfold ensureAcceptHeader
        rw [eq_false_of_ne_true hj, eq_false_of_ne_true he]
        rfl
      rw [hr]
      refine ⟨strIncludes_append_right _ _ _ (by decide),
        strIncludes_append_right _ _ _ (by decide), ?_⟩
      by_cases hr0 : r = ""
      · subst hr0
        exact List.nil_prefix
      · rw [if_pos (by simp [hr0])]
        rw [String.data_append, String.data_append]
        exact ⟨(", ").data ++ ("application/json, text/event-stream").data, by simp⟩
  obtain ⟨h1, h2, h3⟩ := main raw
  refine ⟨h1, h2, h3, ?_⟩
  generalize hx : ensureAcceptHeader raw = x at h1 h2 ⊢
  unfold ensureAcceptHeader
  rw [h1, h2]
  rfl

theorem mkLink_obj (fields : List (String × Json)) :
    mkLink (Json.obj fields) = Except.ok (specLink (Json.obj fields)) := by
  unfold mkLink specLink jsField
  cases hdue : jsFieldLookup fields "due" with
  | none => simp [jsMember, jsOptChain, hdue]
  | some j => cases j <;> simp [jsMember, jsOptChain, hdue]

theorem mapLinks_objs (results : List Json)
    (h : ∀ t ∈ results, ∃ fields, t = Json.obj fields) :
    mapLinks results = Except.ok (results.map specLink) := by
  induction results with
  | nil => rfl
  | cons t ts ih =>
    obtain ⟨fields, hf⟩ := h t (List.mem_cons_self t ts)
    subst hf
    rw [List.map_cons]
    unfold mapLinks
    rw [mkLink_obj, ih (fun u hu => h u (List.mem_cons_of_mem _ hu))]

/-- C5 counterexample: on an OK response whose body parses with one result
object whose content field is present but is the empty string, the link
name is the fallback string task 7 and not the content, refuting the
claim clause that the name equals the content of the result whenever the
content is present. -/
theorem search_link_name_cex :
    (searchHandler "tok" "q" none
        (fun _ => { status := 200, body := "\x7b\"results\":[\x7b\"id\":7,\"content\":\"\"\x7d]\x7d" })).2 =
      Except.ok { content := [ContentBlock.text "Found 1 task(s) for \"q\".",
        ContentBlock.resourceLink "todoist://task/7" (Json.str "task 7") "application/json"
          "no date • project undefined"] }
    ∧ jsField (Json.obj [("id", Json.num 7), ("content", Json.str "")]) "content" =
        some (Json.str "")
    ∧ Json.str "task 7" ≠ Json.str "" := by
  refine ⟨rfl, rfl, fun h => ?_⟩
  injection h with h2
  exact absurd h2 (by decide)

/-- C5 (amended): for every successful search call whose remote response
body parses as JSON whose results field is an array of JSON objects, the
returned content is one leading summary text block reporting the number
of results and the query, followed by exactly one resource link per
result in order, where each link has uri todoist task slash id, mime type
application/json, and name equal to the content of the result when the
content is truthy, and the string task followed by the id when the
content is absent or falsy (null, false, zero or the empty string). -/
theorem search_links_spec (token query : String) (limitOpt : Option Int)
    (remote : HttpRequest → HttpResponse) (data : Json) (results : List Json)
    (hok : (remote (searchRequest token query (limitOpt.getD 50))).ok = true)
    (hparse : jsonParse (remote (searchRequest token query (limitOpt.getD 50))).body = some data)
    (hres : dataResults data = some (Json.arr results))
    (hobj : ∀ t ∈ results, ∃ fields, t = Json.obj fields) :
    (searchHandler token query limitOpt remote).2 =
      Except.ok { content := ContentBlock.text ("Found " ++ toString results.length ++
          " task(s) for \"" ++ query ++ "\".") :: results.map specLink } := by
  show searchRespond query (remote (searchRequest token query (limitOpt.getD 50))) = _
  have h1 : searchRespond query (remote (searchRequest token query (limitOpt.getD 50))) =
      searchSuccess query data := by
    unfold searchRespond
    rw [hok, hparse]
    rfl
  rw [h1]
  have hr : resultsOf data = results := by
    unfold resultsOf
    rw [hres]
  simp only [searchSuccess, hr, mapLinks_objs results hobj]

theorem search_links_spec_witness :
    ((fun _ => { status := 200, body := "\x7b\"results\":[]\x7d" } :
        HttpRequest → HttpResponse) (searchRequest "tok" "q" ((none : Option Int).getD 50))).ok
        = true ∧
    jsonParse "\x7b\"results\":[]\x7d" = some (Json.obj [("results", Json.arr [])]) ∧
    dataResults (Json.obj [("results", Json.arr [])]) = some (Json.arr []) ∧
    (searchHandler "tok" "q" none
        (fun _ => { status := 200, body := "\x7b\"results\":[]\x7d" })).2 =
      Except.ok { content := ContentBlock.text ("Found " ++ toString (List.length ([] : List Json)) ++
          " task(s) for \"" ++ "q" ++ "\".") :: List.map specLink ([] : List Json) } :=
  ⟨rfl, rfl, rfl,
   search_links_spec "tok" "q" none
     (fun _ => { status := 200, body := "\x7b\"results\":[]\x7d" })
     (Json.obj [("results", Json.arr [])]) [] rfl rfl rfl (by simp)⟩

/-- C10: for every successful search call whose remote response body is
valid JSON whose results field is missing or not an array, the handler
does not fail and returns the single Found 0 summary text block with no
resource links. -/
theorem search_no_results_spec (token query : String) (limitOpt : Option Int)
    (remote : HttpRequest → HttpResponse) (data : Json)
    (hok : (remote (searchRequest token query (limitOpt.getD 50))).ok = true)
    (hparse : jsonParse (remote (searchRequest token query (limitOpt.getD 50))).body = some data)
    (hres : jsIsArray (dataResults data) = false) :
    (searchHandler token query limitOpt remote).2 =
      Except.ok { content := [ContentBlock.text ("Found 0 task(s) for \"" ++ query ++ "\".")] } := by
  show searchRespond query (remote (searchRequest token query (limitOpt.getD 50))) = _
  have h1 : searchRespond query (remote (searchRequest token query (limitOpt.getD 50))) =
      searchSuccess query data := by
    unfold searchRespond
    rw [hok, hparse]
    rfl
  rw [h1]
  unfold searchSuccess
  have hr : resultsOf data = [] := by
    unfold resultsOf
    cases h : dataResults data with
    | none => rfl
    | some j =>
      cases j with
      | arr l => rw [h] at hres; exact absurd hres (by simp [jsIsArray])
      | null => rfl
      | bool b => rfl
      | num n => rfl
      | str s => rfl
      | obj fs => rfl
  rw [hr]
  rfl

theorem search_no_results_spec_witness :
    ((fun _ => { status := 200, body := "\x7b\"a\":1\x7d" } :
        HttpRequest → HttpResponse) (searchRequest "tok" "q" ((none : Option Int).getD 50))).ok
        = true ∧
    jsonParse "\x7b\"a\":1\x7d" = some (Json.obj [("a", Json.num 1)]) ∧
    jsIsArray (dataResults (Json.obj [("a", Json.num 1)])) = false ∧
    (searchHandler "tok" "q" none
        (fun _ => { status := 200, body := "\x7b\"a\":1\x7d" })).2 =
      Except.ok { content := [ContentBlock.text ("Found 0 task(s) for \"" ++ "q" ++ "\".")] } :=
  ⟨rfl, rfl, rfl,
   search_no_results_spec "tok" "q" none
     (fun _ => { status := 200, body := "\x7b\"a\":1\x7d" })
     (Json.obj [("a", Json.num 1)]) rfl rfl rfl⟩

end Shim
